import Mathlib

/-!
Verification of the AI-Powered Document Analyzer against its specification.

The development shallowly embeds the parts of the repository the claims are
about:

* the client document model and status handling
  (`frontend/src/types/document.ts`, `frontend/src/types/store.ts`,
  `frontend/src/pages/StoreViewPage.tsx`);
* the WebSocket progress-event parser and reconnect logic
  (`frontend/src/hooks/useWebSocket.ts`);
* the shared axios client's 401 refresh-and-retry interceptor
  (`frontend/src/services/api.ts`);
* the backend Vector Store Adapter, Search Service, Task Orchestrator and
  Bulk Coordinator, which are not part of the checked-out sources (only their
  frontend callers are) and are therefore modelled from the specification;
  every such definition is marked `Modelled from the spec:`.
-/

/- ------------------------------------------------------------------ -/
/- Client document model (types/document.ts, StoreViewPage.tsx)       -/
/- ------------------------------------------------------------------ -/

/-- Client-side document record. The TypeScript interface `Document`
(types/document.ts) declares the status field as `processing_status`, but
`StoreViewPage.tsx` reads and writes `doc.status` — the field actually present
on the runtime objects the backend sends — so the record is modelled with the
`status` field the page uses, together with the interface's other fields.
`file_size_mb` is a float in the source; it is modelled as `Nat` because only
its preservation, never its numeric value, is at stake in the claims. -/
structure Document where
  id : Nat
  filename : String
  original_filename : String
  file_type : String
  file_size : Nat
  s3_path : String
  status : String
  upload_date : String
  processed_at : Option String
  error_message : Option String
  user_id : Nat
  file_size_mb : Nat
  is_ready_for_query : Bool
  deriving DecidableEq

/-- The values of the client-side `ProcessingStatus` union type
(types/document.ts line 7), in declaration order. -/
def processingStatusValues : List String :=
  ["uploaded", "processing", "completed", "failed"]

/-- The field names of the client's `StoreStatusBreakdown` interface
(types/store.ts), in declaration order. -/
def storeStatusBreakdownFields : List String :=
  ["uploaded", "processing", "completed", "indexing",
   "indexed", "partially_indexed", "indexing_failed", "failed"]

/-- The eight document status values named by the spec (section 4.5), in the
spec's order, for comparison with the client declarations. -/
def specStatusValues : List String :=
  ["uploaded", "processing", "completed", "failed",
   "indexing", "indexed", "partially_indexed", "indexing_failed"]

/-- The status badge colour classes of `getStatusColor`
(StoreViewPage.tsx lines 365-381). -/
def getStatusColor (status : String) : String :=
  if status = "completed" ∨ status = "indexed" then
    "bg-green-100 text-green-800 border-green-300"
  else if status = "processing" ∨ status = "indexing" then
    "bg-blue-100 text-blue-800 border-blue-300"
  else if status = "failed" ∨ status = "indexing_failed" then
    "bg-red-100 text-red-800 border-red-300"
  else if status = "partially_indexed" then
    "bg-yellow-100 text-yellow-800 border-yellow-300"
  else
    "bg-gray-100 text-gray-800 border-gray-300"

/- ------------------------------------------------------------------ -/
/- WebSocket progress events (useWebSocket.ts, StoreViewPage.tsx)     -/
/- ------------------------------------------------------------------ -/

/-- The `DocumentUpdate` interface of useWebSocket.ts (lines 9-16): the shape
of one progress event as the client parses it. -/
structure DocumentUpdate where
  document_id : Nat
  status : String
  message : Option String
  chunks : Option Nat
  word_count : Option Nat
  language : Option String
  deriving DecidableEq

/-- The field names of the `DocumentUpdate` interface, paired with whether the
field is required (`true`) or optional (`false`), in declaration order. -/
def documentUpdateFields : List (String × Bool) :=
  [("document_id", true), ("status", true), ("message", false),
   ("chunks", false), ("word_count", false), ("language", false)]

/-- The Progress Event field names the spec's data model states (section 3:
`document_id, new_status, message?, chunks?, word_count?, language?`), for
comparison with the client's `DocumentUpdate` declaration. -/
def specProgressEventFields : List (String × Bool) :=
  [("document_id", true), ("new_status", true), ("message", false),
   ("chunks", false), ("word_count", false), ("language", false)]

/-- A parsed WebSocket frame (`WebSocketMessage` of useWebSocket.ts): a type
tag and, for status updates, the update payload. -/
structure WebSocketMessage where
  type : String
  data : DocumentUpdate
  deriving DecidableEq

/-- What the `ws.onmessage` handler does with one parsed frame. -/
inductive WSAction where
  | applyDocumentUpdate (u : DocumentUpdate)
  | logOnly
  | ignore
  deriving DecidableEq

/-- The dispatch of `ws.onmessage` (useWebSocket.ts lines 66-87): frames of
type `document_status_update` deliver their payload to the update callback;
`connection_established` is only logged; heartbeats and unknown types are
ignored. -/
def onMessage (msg : WebSocketMessage) : WSAction :=
  if msg.type = "document_status_update" then
    WSAction.applyDocumentUpdate msg.data
  else if msg.type = "connection_established" then
    WSAction.logOnly
  else
    WSAction.ignore

/-- JavaScript truthiness of the optional `message` field, as it governs the
expression `update.message || doc.error_message` in StoreViewPage.tsx line 82:
an absent or empty string is falsy. -/
def strTruthy : Option String → Bool
  | none => false
  | some s => s ≠ ""

/-- The per-document body of the `map` inside `handleDocumentUpdate`
(StoreViewPage.tsx lines 74-90): the matching document gets the event's
status, and `error_message` becomes `update.message || doc.error_message`;
every other document is returned unchanged. -/
def applyUpdate (update : DocumentUpdate) (doc : Document) : Document :=
  if doc.id = update.document_id then
    { doc with
        status := update.status,
        error_message :=
          if strTruthy update.message then update.message else doc.error_message }
  else doc

/-- `handleDocumentUpdate` (StoreViewPage.tsx lines 70-91): maps
`applyUpdate` over the current document list. -/
def handleDocumentUpdate (update : DocumentUpdate) (docs : List Document) :
    List Document :=
  docs.map (applyUpdate update)

/- ------------------------------------------------------------------ -/
/- WebSocket reconnection (useWebSocket.ts lines 34-36, 94-111)       -/
/- ------------------------------------------------------------------ -/

/-- `maxReconnectAttempts` (useWebSocket.ts line 36). -/
def maxReconnectAttempts : Nat := 5

/-- The backoff delay computed at useWebSocket.ts line 102:
`Math.min(1000 * Math.pow(2, attempts), 30000)` for the given (already
incremented) attempt counter. -/
def reconnectDelay (attempts : Nat) : Nat :=
  min (1000 * 2 ^ attempts) 30000

/-- What the `ws.onclose` handler decides: schedule a reconnect after a delay
with the incremented attempt counter, report the give-up error, or do
nothing. -/
inductive CloseAction where
  | schedule (delayMs : Nat) (attempts : Nat)
  | reportError
  | idle
  deriving DecidableEq

/-- The `ws.onclose` handler (useWebSocket.ts lines 94-111): on a close that
was not deliberate (code 1000) with attempts still below the maximum, the
counter is incremented and a reconnect is scheduled after the backoff delay;
once the maximum is reached the error state is set instead. -/
def wsOnClose (code attempts : Nat) : CloseAction :=
  if code ≠ 1000 ∧ attempts < maxReconnectAttempts then
    CloseAction.schedule (reconnectDelay (attempts + 1)) (attempts + 1)
  else if maxReconnectAttempts ≤ attempts then
    CloseAction.reportError
  else
    CloseAction.idle

/- ------------------------------------------------------------------ -/
/- Shared axios client, 401 refresh interceptor (services/api.ts)     -/
/- ------------------------------------------------------------------ -/

/-- The two tokens the client keeps in localStorage
(api.ts lines 79, 91-92, 105-106). -/
structure TokenStorage where
  access_token : Option String
  refresh_token : Option String
  deriving DecidableEq

/-- The outcome of the refresh call `POST /api/v1/auth/refresh`
(api.ts line 85), supplied as an oracle: new tokens, or a failure. -/
inductive RefreshOutcome where
  | ok (access : String) (refresh : String)
  | failed
  deriving DecidableEq

/-- `url.includes(pat)` as used at api.ts lines 67-69. -/
def urlIncludes (url pat : String) : Bool :=
  decide (pat.toList <:+: url.toList)

/-- The `isAuthAttempt` test of api.ts lines 67-69. -/
def isAuthAttempt (url : String) : Bool :=
  urlIncludes url "/auth/login" || urlIncludes url "/auth/register" ||
    urlIncludes url "/auth/refresh"

/-- What the response interceptor's error branch ends in: re-issue the
original request with the new access token (and `_retry` set), or propagate
the rejection to the caller. -/
inductive InterceptorAction where
  | retryOriginal (newAccessToken : String)
  | reject
  deriving DecidableEq

/-- The error branch of the response interceptor (api.ts lines 56-117) for a
request carrying the `_retry` flag `retryFlag`, given the stored tokens and a
refresh oracle. Returns the token storage afterwards, the action taken, and
the number of refresh calls made (0 or 1). A 401 on a non-auth URL without
the `_retry` flag reads the stored refresh token (a missing one is thrown and
caught like a failed refresh: both tokens are removed and the error is
rejected), calls the refresh endpoint, and on success stores the new tokens
and retries the original request; every other error is rejected unchanged. -/
def handleResponseError (st : TokenStorage) (status : Nat) (url : String)
    (retryFlag : Bool) (refreshCall : String → RefreshOutcome) :
    TokenStorage × InterceptorAction × Nat :=
  if status = 401 ∧ ¬ isAuthAttempt url ∧ ¬ retryFlag then
    match st.refresh_token with
    | none =>
        ({ access_token := none, refresh_token := none },
         InterceptorAction.reject, 0)
    | some rt =>
        match refreshCall rt with
        | RefreshOutcome.ok a r =>
            ({ access_token := some a, refresh_token := some r },
             InterceptorAction.retryOriginal a, 1)
        | RefreshOutcome.failed =>
            ({ access_token := none, refresh_token := none },
             InterceptorAction.reject, 1)
  else
    (st, InterceptorAction.reject, 0)

/-- A response as the interceptor sees it: success, or an error with an HTTP
status. -/
inductive ServerResponse where
  | success
  | failure (status : Nat)
  deriving DecidableEq

/-- What the caller of the axios client observes for one request. -/
inductive RequestOutcome where
  | ok
  | error
  deriving DecidableEq

/-- One request's trip through the response interceptor: the original send
(`_retry` unset) and, when the interceptor retries, the single retried send
with `_retry` set (api.ts line 73 sets the flag before line 100 re-issues the
request). Returns the final token storage, the outcome, and how many refresh
calls were made in total. -/
def runRequest (st : TokenStorage) (url : String)
    (firstResp retriedResp : ServerResponse)
    (refreshCall : String → RefreshOutcome) :
    TokenStorage × RequestOutcome × Nat :=
  match firstResp with
  | ServerResponse.success => (st, RequestOutcome.ok, 0)
  | ServerResponse.failure status =>
    let r1 := handleResponseError st status url false refreshCall
    match r1.2.1 with
    | InterceptorAction.reject => (r1.1, RequestOutcome.error, r1.2.2)
    | InterceptorAction.retryOriginal _ =>
      match retriedResp with
      | ServerResponse.success => (r1.1, RequestOutcome.ok, r1.2.2)
      | ServerResponse.failure status2 =>
        let r2 := handleResponseError r1.1 status2 url true refreshCall
        match r2.2.1 with
        | InterceptorAction.reject =>
            (r2.1, RequestOutcome.error, r1.2.2 + r2.2.2)
        | InterceptorAction.retryOriginal _ =>
            (r2.1, RequestOutcome.ok, r1.2.2 + r2.2.2)

/- ------------------------------------------------------------------ -/
/- Bulk operations and semantic search, client side                   -/
/- (types/store.ts, services/storeService.ts, StoreViewPage.tsx)      -/
/- ------------------------------------------------------------------ -/

/-- The `ProcessAllResponse` interface (types/store.ts); the
`RetryAllFailedResponse` and `RetryAllIndexingResponse` interfaces declare the
same three fields. -/
structure ProcessAllResponse where
  message : String
  task_ids : List String
  documents_queued : Nat
  deriving DecidableEq

/-- The field names of `ProcessAllResponse` (types/store.ts), in declaration
order. -/
def processAllResponseFields : List String :=
  ["message", "task_ids", "documents_queued"]

/-- The field names of `RetryAllFailedResponse` (types/store.ts). -/
def retryAllFailedResponseFields : List String :=
  ["message", "task_ids", "documents_queued"]

/-- The field names of `RetryAllIndexingResponse` (types/store.ts). -/
def retryAllIndexingResponseFields : List String :=
  ["message", "task_ids", "documents_queued"]

/-- The user feedback a bulk handler produces from the response. -/
inductive BulkFeedback where
  | success (msg : String)
  | info (msg : String)
  deriving DecidableEq

/-- The response handling shared by `handleProcessAll`, `handleRetryAll` and
`handleRetryAllIndexing` (StoreViewPage.tsx lines 221-227, 247-253, 273-279):
a positive `documents_queued` shows the message as success, zero shows it as
info. -/
def handleProcessAllFeedback (r : ProcessAllResponse) : BulkFeedback :=
  if 0 < r.documents_queued then BulkFeedback.success r.message
  else BulkFeedback.info r.message

/-- The `SearchResultItem` interface (types/store.ts lines 149-157): one
element of a semantic-search response. `similarity_score` is a float in the
source; it is modelled as `ℚ` since only its presence and propagation matter
to the claims. -/
structure SearchResultItem where
  chunk_id : Nat
  chunk_content : String
  chunk_index : Nat
  document_id : Nat
  document_filename : String
  similarity_score : ℚ
  page_numbers : List Nat
  deriving DecidableEq

/-- The field names of `SearchResultItem` (types/store.ts), in declaration
order. -/
def searchResultItemFields : List String :=
  ["chunk_id", "chunk_content", "chunk_index", "document_id",
   "document_filename", "similarity_score", "page_numbers"]

/-- The citation field names of the spec's search contract (section 6:
`search -> [{chunk_id, content, document_id, filename, page_numbers[],
score}]`), for comparison with the client declaration. -/
def specSearchResultFields : List String :=
  ["chunk_id", "content", "document_id", "filename", "page_numbers", "score"]

/-- The data one search-result card shows (StoreViewPage.tsx lines 673-703):
the react key, the headline filename, the page-number annotation, the
1-based chunk number, the percentage match, and the excerpt text. -/
structure SearchResultCard where
  key : Nat
  filename : String
  pages : List Nat
  chunkNumber : Nat
  matchPercent : ℚ
  excerpt : String
  deriving DecidableEq

/-- How the result card is filled from one `SearchResultItem`
(StoreViewPage.tsx lines 673-703). -/
def renderSearchResult (r : SearchResultItem) : SearchResultCard :=
  { key := r.chunk_id,
    filename := r.document_filename,
    pages := r.page_numbers,
    chunkNumber := r.chunk_index + 1,
    matchPercent := r.similarity_score * 100,
    excerpt := r.chunk_content }

/- ------------------------------------------------------------------ -/
/- Backend components modelled from the spec                          -/
/- ------------------------------------------------------------------ -/

/-- Modelled from the spec: the backend document record (section 3) is not
under `src/`; only the collection-relevant fields the search claims need are
modelled — id, collection (store) id, and filename. -/
structure DocumentRec where
  id : Nat
  collection_id : Nat
  filename : String
  deriving DecidableEq

/-- Modelled from the spec: one stored vector entry of the Vector Store
Adapter (section 4.4), which is backend code not under `src/` (the frontend
only reaches it through `searchInStore`). `upsert(chunk_id, vector,
scope_key)` keys entries by chunk id; `delete_by_document` implies each entry
also records its owning document. Vector components are modelled as `ℚ`. -/
structure VSEntry where
  chunk_id : Nat
  document_id : Nat
  vector : List ℚ
  scope_key : Nat
  deriving DecidableEq

/-- Insertion of one scored entry into a ranked list, keeping the comparator
order. -/
def insertRanked (before : α → α → Bool) (a : α) : List α → List α
  | [] => [a]
  | b :: rest =>
      if before a b then a :: b :: rest else b :: insertRanked before a rest

/-- Insertion sort by a comparator; the executable stand-in for the ranked
ordering of section 4.4. -/
def rankSort (before : α → α → Bool) : List α → List α
  | [] => []
  | a :: rest => insertRanked before a (rankSort before rest)

/-- Modelled from the spec: the result order of section 4.4 — descending
similarity, ties broken by ascending chunk id. -/
def rankedBefore (a b : VSEntry × ℚ) : Bool :=
  if a.2 = b.2 then a.1.chunk_id ≤ b.1.chunk_id else b.2 < a.2

/-- Modelled from the spec: `query(scope_key, query_vector, top_k)` of the
Vector Store Adapter (section 4.4): keep only the entries stored under the
given scope key, score each against the query vector, rank, and return the
top k. Cosine similarity is real-valued, so the scoring function is an
explicit parameter here; the isolation claim holds for every scoring
function. -/
def query (store : List VSEntry) (scope_key : Nat) (query_vector : List ℚ)
    (top_k : Nat) (score : List ℚ → List ℚ → ℚ) : List (VSEntry × ℚ) :=
  let inScope := store.filter (fun e => e.scope_key == scope_key)
  let scored := inScope.map (fun e => (e, score query_vector e.vector))
  (rankSort rankedBefore scored).take top_k

/-- Modelled from the spec: the Search Service (section 4.9), backend code
not under `src/`. The collection id is used as the scope key of the vector
query, and each ranked chunk is joined with its parent document record for
the filename/page citation. -/
def search (docs : List DocumentRec) (store : List VSEntry)
    (collection_id : Nat) (query_vector : List ℚ) (top_k : Nat)
    (score : List ℚ → List ℚ → ℚ) : List (VSEntry × ℚ × DocumentRec) :=
  (query store collection_id query_vector top_k score).filterMap
    (fun e =>
      (docs.find? (fun d => d.id == e.1.document_id)).map
        (fun d => (e.1, e.2, d)))

/-- The storage invariant the pipeline maintains (sections 3 and 4.4): every
vector entry is stored under the scope key of its owning document's
collection. -/
def WellScoped (docs : List DocumentRec) (store : List VSEntry) : Prop :=
  ∀ e ∈ store, ∀ d ∈ docs, d.id = e.document_id → d.collection_id = e.scope_key

/-- Modelled from the spec: the two pipeline stages of the Task Orchestrator
(section 4.6), backend code not under `src/` (the frontend only triggers it
through `processDocument` and `retryIndexing`). -/
inductive Stage where
  | extraction
  | embedding
  deriving DecidableEq

/-- Modelled from the spec: a Task Record (section 3) — one background unit
of work keyed by `(document_id, stage)`. -/
structure TaskRec where
  document_id : Nat
  stage : Stage
  task_id : Nat
  deriving DecidableEq

/-- Modelled from the spec: the orchestrator's in-flight task tracking of
section 4.6 — the set of active tasks plus a fresh-id counter. -/
structure OrchestratorState where
  active : List TaskRec
  next_task_id : Nat
  deriving DecidableEq

/-- Modelled from the spec: `enqueue_extraction` / `enqueue_embedding`
(sections 4.6 and 6). A trigger for a `(document_id, stage)` that already has
an in-flight task is a no-op whose response carries the existing task's id;
otherwise a fresh task is started and its id returned. -/
def enqueueTask (st : OrchestratorState) (doc : Nat) (stage : Stage) :
    OrchestratorState × Nat :=
  match st.active.find? (fun t => t.document_id == doc && t.stage == stage) with
  | some t => (st, t.task_id)
  | none =>
      ({ active := ⟨doc, stage, st.next_task_id⟩ :: st.active,
         next_task_id := st.next_task_id + 1 },
       st.next_task_id)

/-- The guarantee of section 4.6 as a state predicate: no two distinct active
tasks share a `(document_id, stage)` key. -/
def AtMostOneActive (st : OrchestratorState) : Prop :=
  ∀ t₁ ∈ st.active, ∀ t₂ ∈ st.active,
    t₁.document_id = t₂.document_id → t₁.stage = t₂.stage → t₁ = t₂

/-- Modelled from the spec: the Bulk Coordinator's fan-out (section 4.8),
backend code not under `src/` — one task id per document passing the
operation's eligibility test, in document order. -/
def bulkTrigger (eligible : DocumentRec → Bool) :
    List DocumentRec → List String
  | [] => []
  | d :: rest =>
      if eligible d then ("task-" ++ toString d.id) :: bulkTrigger eligible rest
      else bulkTrigger eligible rest

/-- Modelled from the spec: the immediate response of a bulk trigger
(section 4.8), with the field names of the client's `ProcessAllResponse`
(types/store.ts): the enqueued task ids and their count. -/
def bulkTriggerResponse (eligible : DocumentRec → Bool)
    (docs : List DocumentRec) (msg : String) : ProcessAllResponse :=
  let tids := bulkTrigger eligible docs
  { message := msg, task_ids := tids, documents_queued := tids.length }

/- ------------------------------------------------------------------ -/
/- Concrete instances used by witness and counterexample theorems     -/
/- ------------------------------------------------------------------ -/

/-- Two backend documents in two different collections. -/
def docsW : List DocumentRec :=
  [⟨1, 10, "alpha.pdf"⟩, ⟨2, 20, "beta.pdf"⟩]

/-- Vector entries for `docsW`, each stored under the scope key of its
document's collection. -/
def storeW : List VSEntry :=
  [⟨100, 1, [1], 10⟩, ⟨200, 2, [1], 20⟩]

/-- A constant scoring function standing in for cosine similarity. -/
def scoreW : List ℚ → List ℚ → ℚ := fun _ _ => 0

/-- An orchestrator state with one embedding task (id 42) in flight for
document 7. -/
def orchW : OrchestratorState :=
  { active := [⟨7, Stage.embedding, 42⟩], next_task_id := 43 }

/-- A client document in the `failed` state with a recorded error message. -/
def docFailedW : Document :=
  { id := 1, filename := "report.pdf", original_filename := "report.pdf",
    file_type := "pdf", file_size := 2048,
    s3_path := "uploads/3/report.pdf", status := "failed",
    upload_date := "2025-01-01", processed_at := none,
    error_message := some "No usable text extracted", user_id := 3,
    file_size_mb := 2, is_ready_for_query := false }

/-- A progress event moving document 1 to `completed`, carrying no message. -/
def updCompletedW : DocumentUpdate :=
  { document_id := 1, status := "completed", message := none,
    chunks := none, word_count := none, language := none }

/-- Fifteen backend documents: ids 1-10 in collection 1, ids 11-15 in
collection 2. -/
def docs15W : List DocumentRec :=
  (List.range 15).map
    (fun i => ⟨i + 1, if i + 1 ≤ 10 then 1 else 2, "doc.pdf"⟩)

/-- The eligibility test making exactly the ten collection-1 documents of
`docs15W` eligible. The spec's eligible sets are status tests; eligibility is
abstracted here as a predicate on the document record. -/
def eligibleW : DocumentRec → Bool := fun d => d.collection_id == 1

/-- A token storage holding an expired access token and a refresh token. -/
def tokensW : TokenStorage :=
  { access_token := some "expired-access", refresh_token := some "refresh-1" }

/-- A refresh oracle whose refresh call always fails. -/
def refreshFailW : String → RefreshOutcome := fun _ => RefreshOutcome.failed

/-- The storage invariant is decidable, so witnesses can check it on concrete
corpora. -/
instance (docs : List DocumentRec) (store : List VSEntry) :
    Decidable (WellScoped docs store) := by
  unfold WellScoped; exact inferInstance

/-- The at-most-one-active-task invariant is decidable, so witnesses can
check it on concrete states. -/
instance (st : OrchestratorState) : Decidable (AtMostOneActive st) := by
  unfold AtMostOneActive; exact inferInstance

/- ------------------------------------------------------------------ -/
/- Helper lemmas                                                      -/
/- ------------------------------------------------------------------ -/

theorem mem_insertRanked {α : Type} (before : α → α → Bool) (a x : α)
    (l : List α) : x ∈ insertRanked before a l ↔ x = a ∨ x ∈ l := by
  induction l with
  | nil => simp [insertRanked]
  | cons b rest ih =>
      simp only [insertRanked]
      split
      · simp [List.mem_cons]
      · simp [List.mem_cons, ih]
        tauto

theorem mem_rankSort {α : Type} (before : α → α → Bool) (x : α)
    (l : List α) : x ∈ rankSort before l ↔ x ∈ l := by
  induction l with
  | nil => simp [rankSort]
  | cons a rest ih =>
      simp only [rankSort]
      rw [mem_insertRanked]
      simp [ih]

theorem bulkTrigger_length (eligible : DocumentRec → Bool)
    (docs : List DocumentRec) :
    (bulkTrigger eligible docs).length = (docs.filter eligible).length := by
  induction docs with
  | nil => rfl
  | cons d rest ih =>
      simp only [bulkTrigger, List.filter_cons]
      split <;> simp [ih]

/- ------------------------------------------------------------------ -/
/- Claim theorems                                                     -/
/- ------------------------------------------------------------------ -/

/-- C1: for every scope key, query vector and k, a search never returns a
chunk whose owning document belongs to a different collection than the given
scope key: under the storage invariant, every entry returned by `query` is
stored under the requested scope key, and every `search` result's joined
document belongs to the requested collection — independent of the scoring
function and of any authorization done upstream. -/
theorem search_collection_isolation (docs : List DocumentRec)
    (store : List VSEntry) (cid : Nat) (qv : List ℚ) (k : Nat)
    (score : List ℚ → List ℚ → ℚ) (hws : WellScoped docs store) :
    (∀ e ∈ query store cid qv k score, e.1.scope_key = cid) ∧
    (∀ r ∈ search docs store cid qv k score, r.2.2.collection_id = cid) := by
  have hq : ∀ e ∈ query store cid qv k score,
      e.1 ∈ store ∧ e.1.scope_key = cid := by
    intro e he
    simp only [query] at he
    have h1 := List.mem_of_mem_take he
    rw [mem_rankSort] at h1
    obtain ⟨a, ha, rfl⟩ := List.mem_map.mp h1
    have h2 := List.mem_filter.mp ha
    exact ⟨h2.1, by simpa using h2.2⟩
  refine ⟨fun e he => (hq e he).2, ?_⟩
  intro r hr
  simp only [search] at hr
  obtain ⟨e, he, hmap⟩ := List.mem_filterMap.mp hr
  cases hfind : docs.find? (fun d => d.id == e.1.document_id) with
  | none => rw [hfind] at hmap; simp at hmap
  | some d =>
      rw [hfind] at hmap
      have hd : d ∈ docs := List.mem_of_find?_eq_some hfind
      have hid : d.id = e.1.document_id := by simpa using List.find?_some hfind
      have hent := hq e he
      have hcol : d.collection_id = e.1.scope_key := hws e.1 hent.1 d hd hid
      have hr2 : (e.1, e.2, d) = r := by simpa using hmap
      rw [← hr2]
      exact hcol.trans hent.2

/-- C1 witness: a concrete two-collection corpus satisfying the storage
invariant, on which every result of a collection-10 search cites a
collection-10 document. -/
theorem search_collection_isolation_w :
    WellScoped docsW storeW ∧
    (∀ r ∈ search docsW storeW 10 [1] 5 scoreW, r.2.2.collection_id = 10) :=
  ⟨by decide,
   (search_collection_isolation docsW storeW 10 [1] 5 scoreW (by decide)).2⟩

/-- C2: at most one task is ever active per `(document_id, stage)`: the
no-duplicates invariant is preserved by `enqueueTask`; a trigger while a task
for the same key is in flight starts no new task and returns the existing
task's id; and a second trigger right after a first one returns the first
trigger's state and task id unchanged. -/
theorem enqueue_at_most_one_task (st : OrchestratorState) (doc : Nat)
    (stage : Stage) (hinv : AtMostOneActive st) :
    AtMostOneActive (enqueueTask st doc stage).1 ∧
    (∀ t ∈ st.active, t.document_id = doc → t.stage = stage →
        enqueueTask st doc stage = (st, t.task_id)) ∧
    enqueueTask (enqueueTask st doc stage).1 doc stage =
      ((enqueueTask st doc stage).1, (enqueueTask st doc stage).2) := by
  cases hfind :
      st.active.find? (fun t => t.document_id == doc && t.stage == stage) with
  | some t0 =>
      have hkey := List.find?_some hfind
      have hmem := List.mem_of_find?_eq_some hfind
      simp only [Bool.and_eq_true, beq_iff_eq] at hkey
      have heq : enqueueTask st doc stage = (st, t0.task_id) := by
        simp [enqueueTask, hfind]
      refine ⟨?_, ?_, ?_⟩
      · rw [heq]; exact hinv
      · intro t ht hdoc hstage
        have ht0 : t = t0 :=
          hinv t ht t0 hmem (hdoc.trans hkey.1.symm) (hstage.trans hkey.2.symm)
        rw [heq, ht0]
      · rw [heq]
        simp [enqueueTask, hfind]
  | none =>
      have hnone := List.find?_eq_none.mp hfind
      have heq : enqueueTask st doc stage =
          ({ active := ⟨doc, stage, st.next_task_id⟩ :: st.active,
             next_task_id := st.next_task_id + 1 }, st.next_task_id) := by
        simp [enqueueTask, hfind]
      refine ⟨?_, ?_, ?_⟩
      · rw [heq]
        intro t₁ h₁ t₂ h₂ hdoc hstage
        rcases List.mem_cons.mp h₁ with rfl | h₁m
        · rcases List.mem_cons.mp h₂ with rfl | h₂m
          · rfl
          · exact absurd (by simp [← hdoc, ← hstage]) (hnone t₂ h₂m)
        · rcases List.mem_cons.mp h₂ with rfl | h₂m
          · exact absurd (by simp [hdoc, hstage]) (hnone t₁ h₁m)
          · exact hinv t₁ h₁m t₂ h₂m hdoc hstage
      · intro t ht hdoc hstage
        exact absurd (by simp [hdoc, hstage]) (hnone t ht)
      · rw [heq]
        simp [enqueueTask]

/-- C2 witness: with an embedding task (id 42) in flight for document 7, a
second `enqueue_embedding` trigger for document 7 changes nothing and returns
task id 42. -/
theorem enqueue_at_most_one_task_w :
    AtMostOneActive orchW ∧
    enqueueTask orchW 7 Stage.embedding = (orchW, 42) := by
  have h := enqueue_at_most_one_task orchW 7 Stage.embedding (by decide)
  exact ⟨by decide, h.2.1 ⟨7, Stage.embedding, 42⟩ (by decide) rfl rfl⟩

/-- C3 counterexample: the spec's status enum contains `indexed`, but the
client-side `ProcessingStatus` type declares only four values and `indexed`
is not among them — refuting the claim that the client-side status type
declares all eight values. -/
theorem processingStatus_type_missing_indexed :
    "indexed" ∈ specStatusValues ∧ "indexed" ∉ processingStatusValues ∧
    processingStatusValues.length = 4 := by decide

/-- C3 (amended): the status enum at the public interface consists of the
eight values; the client's `StoreStatusBreakdown` type declares exactly those
eight as fields and the status colour mapping distinguishes the indexing
states, but the client-side `ProcessingStatus` type declares only four of the
eight (`uploaded`, `processing`, `completed`, `failed`). -/
theorem status_enum_client_declarations :
    specStatusValues.length = 8 ∧
    processingStatusValues = ["uploaded", "processing", "completed", "failed"] ∧
    (∀ s ∈ processingStatusValues, s ∈ specStatusValues) ∧
    storeStatusBreakdownFields.Perm specStatusValues ∧
    getStatusColor "indexed" = getStatusColor "completed" ∧
    getStatusColor "indexing" = getStatusColor "processing" ∧
    getStatusColor "indexing_failed" = getStatusColor "failed" ∧
    getStatusColor "partially_indexed" ≠ getStatusColor "uploaded" := by
  refine ⟨rfl, rfl, by decide, by decide, by decide, by decide, by decide,
    by decide⟩

/-- C4 counterexample: the spec's Progress Event shape names its mandatory
status field `new_status`, but no field of the client's `DocumentUpdate`
event shape bears that name — refuting the claim that the event's status
field is named `new_status`. -/
theorem progress_event_no_new_status_field :
    ("new_status", true) ∈ specProgressEventFields ∧
    "new_status" ∉ documentUpdateFields.map Prod.fst := by decide

/-- C4 (amended): every progress event delivered to a client has the shape
`document_id, status, message?, chunks?, word_count?, language?` — the
mandatory status field is named `status`, not `new_status` — and the client's
event parser delivers exactly that payload for frames of type
`document_status_update`. -/
theorem progress_event_shape :
    documentUpdateFields =
      [("document_id", true), ("status", true), ("message", false),
       ("chunks", false), ("word_count", false), ("language", false)] ∧
    documentUpdateFields.map Prod.fst =
      ["document_id", "status", "message", "chunks", "word_count",
       "language"] ∧
    (∀ u : DocumentUpdate,
        onMessage { type := "document_status_update", data := u } =
          WSAction.applyDocumentUpdate u) := by
  refine ⟨rfl, by decide, fun u => by simp [onMessage]⟩

/-- C5 counterexample: a document in the `failed` state with a recorded
error message, receiving an update to `completed` that carries no message,
keeps its old error message — refuting the claim that the update clears
`error_message` when moving out of a failure state without a message. -/
theorem error_message_not_cleared :
    docFailedW.status = "failed" ∧
    docFailedW.error_message = some "No usable text extracted" ∧
    updCompletedW.status = "completed" ∧ updCompletedW.message = none ∧
    (applyUpdate updCompletedW docFailedW).status = "completed" ∧
    (applyUpdate updCompletedW docFailedW).error_message =
      some "No usable text extracted" := by decide

/-- C5 (amended): applying a status-update event to the matching document
sets its status to the event's status and sets `error_message` to the
event's message when one is present and non-empty; with an absent or empty
message the previous `error_message` is retained — it is never cleared on a
transition out of a failure state. -/
theorem applyUpdate_error_message_policy (u : DocumentUpdate)
    (doc : Document) (h : doc.id = u.document_id) :
    (applyUpdate u doc).status = u.status ∧
    (u.message = none →
        (applyUpdate u doc).error_message = doc.error_message) ∧
    (u.message = some "" →
        (applyUpdate u doc).error_message = doc.error_message) ∧
    (∀ s, u.message = some s → s ≠ "" →
        (applyUpdate u doc).error_message = some s) := by
  unfold applyUpdate
  rw [if_pos h]
  refine ⟨rfl, ?_, ?_, ?_⟩
  · intro hm; simp [strTruthy, hm]
  · intro hm; simp [strTruthy, hm]
  · intro s hm hs; simp [strTruthy, hm, hs]

/-- C5 witness: the amended statement applied to the concrete failed
document and message-less completion event. -/
theorem applyUpdate_error_message_policy_w :
    docFailedW.id = updCompletedW.document_id ∧
    (applyUpdate updCompletedW docFailedW).status = "completed" := by
  have h := applyUpdate_error_message_policy updCompletedW docFailedW rfl
  exact ⟨rfl, h.1⟩

/-- C6 counterexample: none of the three bulk-trigger response types has a
field named `queued_count`; the count field is `documents_queued` — refuting
the claimed field name. -/
theorem bulk_response_no_queued_count_field :
    "queued_count" ∉ processAllResponseFields ∧
    "queued_count" ∉ retryAllFailedResponseFields ∧
    "queued_count" ∉ retryAllIndexingResponseFields ∧
    "documents_queued" ∈ processAllResponseFields := by decide

/-- C6 (amended): the bulk trigger's response carries the count of enqueued
per-document tasks in an integer field named `documents_queued` (alongside
`message` and `task_ids`); it equals the number of eligible documents, and
the client reads `documents_queued` to choose its feedback. -/
theorem bulk_trigger_documents_queued (eligible : DocumentRec → Bool)
    (docs : List DocumentRec) (msg : String) :
    (bulkTriggerResponse eligible docs msg).documents_queued =
      (docs.filter eligible).length ∧
    (bulkTriggerResponse eligible docs msg).task_ids.length =
      (docs.filter eligible).length ∧
    processAllResponseFields = ["message", "task_ids", "documents_queued"] ∧
    (∀ r : ProcessAllResponse, 0 < r.documents_queued →
        handleProcessAllFeedback r = BulkFeedback.success r.message) ∧
    (∀ r : ProcessAllResponse, r.documents_queued = 0 →
        handleProcessAllFeedback r = BulkFeedback.info r.message) := by
  refine ⟨bulkTrigger_length eligible docs, bulkTrigger_length eligible docs,
    rfl, ?_, ?_⟩
  · intro r hr; simp [handleProcessAllFeedback, hr]
  · intro r hr; simp [handleProcessAllFeedback, hr]

/-- C6 witness: on the concrete collection of ten eligible and five
ineligible documents, the response's `documents_queued` is exactly 10 and
the client shows the success feedback. -/
theorem bulk_trigger_documents_queued_w :
    (bulkTriggerResponse eligibleW docs15W "queued").documents_queued =
      (docs15W.filter eligibleW).length ∧
    (docs15W.filter eligibleW).length = 10 ∧
    handleProcessAllFeedback
        (bulkTriggerResponse eligibleW docs15W "queued") =
      BulkFeedback.success "queued" := by
  refine ⟨(bulk_trigger_documents_queued eligibleW docs15W "queued").1,
    by decide, ?_⟩
  exact (bulk_trigger_documents_queued eligibleW docs15W "queued").2.2.2.1 _
    (by decide)

/-- C7 counterexample: the spec's citation contract names the fields
`content`, `filename` and `score`, but the client's `SearchResultItem`
declares none of those names — refuting the claim that results carry exactly
the contract's field names. -/
theorem search_result_fields_not_spec_names :
    "content" ∈ specSearchResultFields ∧
    "filename" ∈ specSearchResultFields ∧
    "score" ∈ specSearchResultFields ∧
    "content" ∉ searchResultItemFields ∧
    "filename" ∉ searchResultItemFields ∧
    "score" ∉ searchResultItemFields := by decide

/-- C7 (amended): every search result carries the citation fields under the
names `chunk_id`, `chunk_content`, `chunk_index`, `document_id`,
`document_filename`, `similarity_score` and `page_numbers`, and the result
card annotates each excerpt with its parent document filename and page
numbers read from those fields. -/
theorem search_result_citation_fields :
    searchResultItemFields =
      ["chunk_id", "chunk_content", "chunk_index", "document_id",
       "document_filename", "similarity_score", "page_numbers"] ∧
    "chunk_id" ∈ searchResultItemFields ∧
    "document_id" ∈ searchResultItemFields ∧
    "page_numbers" ∈ searchResultItemFields ∧
    (∀ r : SearchResultItem,
        (renderSearchResult r).filename = r.document_filename ∧
        (renderSearchResult r).pages = r.page_numbers ∧
        (renderSearchResult r).excerpt = r.chunk_content ∧
        (renderSearchResult r).matchPercent = r.similarity_score * 100) :=
  ⟨rfl, by decide, by decide, by decide, fun r => ⟨rfl, rfl, rfl, rfl⟩⟩

/-- C8: after an abnormal close, reconnect attempt n (1 ≤ n ≤ 5) is
scheduled with delay `min(1000 * 2 ^ n, 30000)` milliseconds — a delay
non-decreasing in n and capped at 30000 — and once the five attempts are
exhausted no further reconnect is scheduled; the error state is set
instead. -/
theorem ws_reconnect_backoff (n code : Nat) (h1 : 1 ≤ n) (h2 : n ≤ 5)
    (hc : code ≠ 1000) :
    wsOnClose code (n - 1) = CloseAction.schedule (reconnectDelay n) n ∧
    reconnectDelay n = min (1000 * 2 ^ n) 30000 ∧
    (∀ m, m ≤ n → reconnectDelay m ≤ reconnectDelay n) ∧
    reconnectDelay n ≤ 30000 ∧
    (∀ c, wsOnClose c maxReconnectAttempts = CloseAction.reportError) := by
  refine ⟨?_, rfl, ?_, ?_, ?_⟩
  · have hn : n - 1 + 1 = n := by omega
    unfold wsOnClose
    rw [if_pos ⟨hc, by unfold maxReconnectAttempts; omega⟩, hn]
  · intro m hm
    exact min_le_min
      (Nat.mul_le_mul_left _ (Nat.pow_le_pow_right (by norm_num) hm)) le_rfl
  · exact min_le_right _ _
  · intro c
    simp [wsOnClose, maxReconnectAttempts]

/-- C8 witness: the third reconnect attempt after an abnormal close (code
1006) is scheduled with an 8000 ms delay. -/
theorem ws_reconnect_backoff_w :
    (1 ≤ 3 ∧ 3 ≤ 5 ∧ (1006 : Nat) ≠ 1000) ∧
    wsOnClose 1006 2 = CloseAction.schedule 8000 3 := by
  have h := (ws_reconnect_backoff 3 1006 (by decide) (by decide)
    (by decide)).1
  refine ⟨⟨by decide, by decide, by decide⟩, ?_⟩
  have hd : reconnectDelay 3 = 8000 := by decide
  rw [hd] at h
  exact h

/-- C9: `handleDocumentUpdate` preserves the list's length and order and
acts elementwise; a document whose id differs from the event's
`document_id` is returned unchanged, and for the matching document at most
`status` and `error_message` change — every other field is preserved. -/
theorem handleDocumentUpdate_frame (u : DocumentUpdate)
    (docs : List Document) (doc : Document) :
    (handleDocumentUpdate u docs).length = docs.length ∧
    (∀ i, (handleDocumentUpdate u docs).get? i =
        (docs.get? i).map (applyUpdate u)) ∧
    (doc.id ≠ u.document_id → applyUpdate u doc = doc) ∧
    (applyUpdate u doc).id = doc.id ∧
    (applyUpdate u doc).filename = doc.filename ∧
    (applyUpdate u doc).original_filename = doc.original_filename ∧
    (applyUpdate u doc).file_type = doc.file_type ∧
    (applyUpdate u doc).file_size = doc.file_size ∧
    (applyUpdate u doc).s3_path = doc.s3_path ∧
    (applyUpdate u doc).upload_date = doc.upload_date ∧
    (applyUpdate u doc).processed_at = doc.processed_at ∧
    (applyUpdate u doc).user_id = doc.user_id ∧
    (applyUpdate u doc).file_size_mb = doc.file_size_mb ∧
    (applyUpdate u doc).is_ready_for_query = doc.is_ready_for_query := by
  refine ⟨?_, ?_, ?_, ?_, ?_, ?_, ?_, ?_, ?_, ?_, ?_, ?_, ?_, ?_⟩
  · simp [handleDocumentUpdate]
  · intro i; simp [handleDocumentUpdate]
  · intro h; simp [applyUpdate, h]
  all_goals unfold applyUpdate; split <;> rfl

/-- C9 witness: the frame theorem applied to the concrete event and
single-document list. -/
theorem handleDocumentUpdate_frame_w :
    (handleDocumentUpdate updCompletedW [docFailedW]).length = 1 ∧
    (applyUpdate updCompletedW docFailedW).filename = docFailedW.filename := by
  have h := handleDocumentUpdate_frame updCompletedW [docFailedW] docFailedW
  exact ⟨h.1, h.2.2.2.2.1⟩

theorem handleResponseError_retried (st : TokenStorage) (status : Nat)
    (url : String) (refreshCall : String → RefreshOutcome) :
    handleResponseError st status url true refreshCall =
      (st, InterceptorAction.reject, 0) := by
  simp [handleResponseError]

theorem handleResponseError_count_le (st : TokenStorage) (status : Nat)
    (url : String) (retryFlag : Bool)
    (refreshCall : String → RefreshOutcome) :
    (handleResponseError st status url retryFlag refreshCall).2.2 ≤ 1 := by
  unfold handleResponseError
  split
  · cases hrt : st.refresh_token with
    | none => simp
    | some rt => cases hrc : refreshCall rt <;> simp [hrc]
  · simp

/-- C10: for a 401 on a non-auth URL, the client performs the
refresh-and-retry sequence at most once per original request (the `_retry`
flag makes a 401 on the retried request reject without another refresh),
and when the refresh fails — or no refresh token is stored — both tokens are
removed before the error propagates. -/
theorem api_401_refresh_once (st : TokenStorage) (url : String)
    (firstResp retriedResp : ServerResponse)
    (refreshCall : String → RefreshOutcome)
    (hauth : isAuthAttempt url = false) :
    (runRequest st url firstResp retriedResp refreshCall).2.2 ≤ 1 ∧
    (∀ status, (handleResponseError st status url true refreshCall).2.1 =
        InterceptorAction.reject) ∧
    (∀ rt, st.refresh_token = some rt →
        refreshCall rt = RefreshOutcome.failed →
        handleResponseError st 401 url false refreshCall =
          ({ access_token := none, refresh_token := none },
           InterceptorAction.reject, 1)) ∧
    (st.refresh_token = none →
        handleResponseError st 401 url false refreshCall =
          ({ access_token := none, refresh_token := none },
           InterceptorAction.reject, 0)) := by
  refine ⟨?_, ?_, ?_, ?_⟩
  · cases firstResp with
    | success => simp [runRequest]
    | failure status =>
        rcases h1 : handleResponseError st status url false refreshCall with
          ⟨st1, act1, n1⟩
        have hn1 : n1 ≤ 1 := by
          have hc := handleResponseError_count_le st status url false
            refreshCall
          rw [h1] at hc; exact hc
        cases act1 with
        | reject => simpa [runRequest, h1] using hn1
        | retryOriginal a =>
            cases retriedResp with
            | success => simpa [runRequest, h1] using hn1
            | failure s2 =>
                simpa [runRequest, h1, handleResponseError_retried]
                  using hn1
  · intro status
    rw [handleResponseError_retried]
  · intro rt hrt hfail
    simp [handleResponseError, hauth, hrt, hfail]
  · intro hnone
    simp [handleResponseError, hauth, hnone]

/-- C10 witness: a concrete non-auth request that gets a 401 on both the
original and the retried send, with a failing refresh: at most one refresh
happens, and the failing refresh clears both tokens and rejects. -/
theorem api_401_refresh_once_w :
    isAuthAttempt "/api/v1/documents/" = false ∧
    (runRequest tokensW "/api/v1/documents/" (ServerResponse.failure 401)
        (ServerResponse.failure 401) refreshFailW).2.2 ≤ 1 ∧
    handleResponseError tokensW 401 "/api/v1/documents/" false refreshFailW =
      ({ access_token := none, refresh_token := none },
       InterceptorAction.reject, 1) := by
  have h := api_401_refresh_once tokensW "/api/v1/documents/"
    (ServerResponse.failure 401) (ServerResponse.failure 401) refreshFailW
    (by decide)
  exact ⟨by decide, h.1, h.2.2.1 "refresh-1" rfl rfl⟩
